import Mathlib

/-!
Formal model of the spending-tracker core: transaction entities, query
filters and aggregates, budget tracking, the transaction service cache,
the recurring-transaction processors and the report scheduler.

Monetary amounts are modelled as rationals; the floating-point arithmetic
in the source is exact on the integral and small-decimal values involved
in every statement below.  Calendar dates are modelled as year/month/day
triples together with a validity predicate playing the role of a
successful strptime parse of a YYYY-MM-DD string.  The id and
created_at/updated_at metadata fields of the source records are not
referenced by any property below and are omitted from the record types.
-/

namespace SpendingTracker

/-- Calendar date, the parsed form of a YYYY-MM-DD string. -/
structure Ymd where
  year : Nat
  month : Nat
  day : Nat
deriving DecidableEq

/-- Gregorian leap-year rule, as implemented by the calendar module. -/
def isLeapYear (y : Nat) : Bool :=
  (y % 4 == 0 && y % 100 != 0) || (y % 400 == 0)

/-- Number of days in a month, as returned by calendar.monthrange. -/
def daysInMonth (y m : Nat) : Nat :=
  if m == 2 then (if isLeapYear y then 29 else 28)
  else if m == 4 || m == 6 || m == 9 || m == 11 then 30
  else 31

/-- Date validity: exactly the triples that strptime accepts from a
YYYY-MM-DD string. -/
def Ymd.valid (d : Ymd) : Bool :=
  decide (1 ≤ d.month ∧ d.month ≤ 12 ∧ 1 ≤ d.day ∧ d.day ≤ daysInMonth d.year d.month)

/-- Strict lexicographic date order, matching datetime comparison. -/
def Ymd.ltb (a b : Ymd) : Bool :=
  decide (a.year < b.year ∨ (a.year = b.year ∧
    (a.month < b.month ∨ (a.month = b.month ∧ a.day < b.day))))

/-- Non-strict lexicographic date order, matching datetime comparison. -/
def Ymd.leb (a b : Ymd) : Bool :=
  decide (a.year < b.year ∨ (a.year = b.year ∧
    (a.month < b.month ∨ (a.month = b.month ∧ a.day ≤ b.day))))

/-- Transaction record (src/models/expense.py, class Expense): a dated
signed monetary movement.  Negative amounts are expenses, positive
amounts are credits. -/
structure Expense where
  date : Ymd
  amount : ℚ
  category : String
  description : String
deriving DecidableEq

/-- Whitespace stripping from both ends of a string, modelling the
Python str.strip method. -/
def strTrim (s : String) : String :=
  ⟨((s.data.dropWhile Char.isWhitespace).reverse.dropWhile Char.isWhitespace).reverse⟩

/-- Expense.validate succeeds: nonzero amount, parseable date, category
non-empty after stripping (src/models/expense.py, Expense.validate). -/
def Expense.validB (e : Expense) : Bool :=
  decide (e.amount ≠ 0) && e.date.valid && decide (strTrim e.category ≠ "")

/-- The field clean-up performed by Expense.validate (strips the category
and description strings). -/
def Expense.normalize (e : Expense) : Expense :=
  { e with category := strTrim e.category, description := strTrim e.description }

/-- Expense.is_in_month: the date parses and lies in the given month. -/
def Expense.isInMonth (e : Expense) (y m : Nat) : Bool :=
  e.date.valid && decide (e.date.year = y) && decide (e.date.month = m)

/-- Expense.is_in_date_range: all three dates parse and the expense date
lies between the bounds inclusively. -/
def Expense.isInDateRange (e : Expense) (s t : Ymd) : Bool :=
  e.date.valid && s.valid && t.valid && s.leb e.date && e.date.leb t

/-- Substring test on character lists, modelling the Python membership
operator on strings. -/
def charsContain : List Char → List Char → Bool
  | _, [] => true
  | [], _ :: _ => false
  | c :: cs, q :: qs => (List.isPrefixOf (q :: qs) (c :: cs)) || charsContain cs (q :: qs)

namespace ExpenseFilter

/-- ExpenseFilter.by_category: case-insensitive category match. -/
def byCategory (expenses : List Expense) (category : String) : List Expense :=
  expenses.filter (fun e => e.category.toLower == category.toLower)

/-- ExpenseFilter.by_amount_range: inclusive amount bounds. -/
def byAmountRange (expenses : List Expense) (minAmount maxAmount : ℚ) : List Expense :=
  expenses.filter (fun e => decide (minAmount ≤ e.amount ∧ e.amount ≤ maxAmount))

/-- ExpenseFilter.by_date_range: inclusive date bounds. -/
def byDateRange (expenses : List Expense) (startDate endDate : Ymd) : List Expense :=
  expenses.filter (fun e => e.isInDateRange startDate endDate)

/-- ExpenseFilter.by_month. -/
def byMonth (expenses : List Expense) (y m : Nat) : List Expense :=
  expenses.filter (fun e => e.isInMonth y m)

/-- ExpenseFilter.by_description_contains: case-insensitive substring
match on the description. -/
def byDescriptionContains (expenses : List Expense) (term : String) : List Expense :=
  expenses.filter (fun e => charsContain e.description.toLower.data term.toLower.data)

end ExpenseFilter

namespace ExpenseAggregator

/-- ExpenseAggregator.total_amount: signed sum over the whole list. -/
def totalAmount (expenses : List Expense) : ℚ :=
  (expenses.map (fun e => e.amount)).sum

/-- ExpenseAggregator.total_expenses_only: sum of the negative amounts
(stays negative). -/
def totalExpensesOnly (expenses : List Expense) : ℚ :=
  ((expenses.filter (fun e => decide (e.amount < 0))).map (fun e => e.amount)).sum

/-- ExpenseAggregator.total_income_only: sum of the positive amounts. -/
def totalIncomeOnly (expenses : List Expense) : ℚ :=
  ((expenses.filter (fun e => decide (0 < e.amount))).map (fun e => e.amount)).sum

/-- ExpenseAggregator.total_spending_absolute. -/
def totalSpendingAbsolute (expenses : List Expense) : ℚ :=
  |totalExpensesOnly expenses|

end ExpenseAggregator

/-- Budget record (src/models/budget.py, class Budget): a per-category
monthly spending ceiling with an activation window. -/
structure Budget where
  category : String
  monthly_limit : ℚ
  start_date : Ymd
  end_date : Option Ymd
  is_active : Bool
deriving DecidableEq

/-- Budget.is_active_for_date: the budget is flagged active, the dates
parse, the date is not before the start date and not after the end date
when one is set. -/
def Budget.isActiveForDate (b : Budget) (d : Ymd) : Bool :=
  b.is_active &&
    (d.valid && b.start_date.valid && !(d.ltb b.start_date) &&
      (match b.end_date with
       | none => true
       | some e => e.valid && !(e.ltb d)))

/-- Budget.get_spending_for_month: absolute value of the sum of the
negative amounts among the transactions of the budget's category
(case-insensitively) in the given month. -/
def Budget.getSpendingForMonth (b : Budget) (y m : Nat) (expenses : List Expense) : ℚ :=
  |(((ExpenseFilter.byMonth (ExpenseFilter.byCategory expenses b.category) y m).filter
      (fun e => decide (e.amount < 0))).map (fun e => e.amount)).sum|

/-- BudgetManager.get_budget_by_category: the first budget whose category
matches case-insensitively and which is active for the date. -/
def getBudgetByCategory (budgets : List Budget) (category : String) (d : Ymd) : Option Budget :=
  budgets.find? (fun b => b.category.toLower == category.toLower && b.isActiveForDate d)

/-- Budget-threshold warning computed by
ExpenseController._check_budget_warnings, with the formatted message
strings abstracted into constructors carrying the reported numbers. -/
inductive BudgetWarning where
  | noWarning
  | exceeds (overage : ℚ)
  | usagePercent (percentage : ℚ)
deriving DecidableEq

/-- The threshold comparison of _check_budget_warnings for a resolved
budget: projected spending is the month's recorded spending plus the new
transaction's signed amount; above the limit reports the overage, above
80 percent of the limit reports the projected percentage. -/
def computeBudgetWarning (b : Budget) (current : List Expense) (e : Expense) : BudgetWarning :=
  let projected := b.getSpendingForMonth e.date.year e.date.month current + e.amount
  if decide (b.monthly_limit < projected) then .exceeds (projected - b.monthly_limit)
  else if decide (b.monthly_limit * (8 / 10) < projected) then
    .usagePercent (projected / b.monthly_limit * 100)
  else .noWarning

/-- ExpenseController._check_budget_warnings over an already-loaded
current transaction list: parse the date (failures yield no warning),
resolve the active budget for the category, and compare thresholds. -/
def checkBudgetWarnings (budgets : List Budget) (current : List Expense) (e : Expense) :
    BudgetWarning :=
  if e.date.valid then
    match getBudgetByCategory budgets e.category e.date with
    | some b => computeBudgetWarning b current e
    | none => .noWarning
  else .noWarning

/-- Year-month token, the parsed form of a YYYY-MM string used as the
idempotency key for once-per-month processing. -/
def monthKey (d : Ymd) : Nat × Nat := (d.year, d.month)

/-- Recurring-rule record stored in the configuration
(src/gui/main_window.py, recurring_expenses entries). -/
structure RecurringRule where
  amount : ℚ
  category : String
  description : String
  day_of_month : Nat
  last_processed : Option (Nat × Nat)
  enabled : Bool
deriving DecidableEq

/-- The should_process test of check_and_process_recurring_expenses: the
rule is enabled, the target day has been reached, and the rule has not
yet been processed in the current month. -/
def ruleDue (d : Ymd) (r : RecurringRule) : Bool :=
  r.enabled && decide (r.day_of_month ≤ d.day) && decide (r.last_processed ≠ some (monthKey d))

/-- Day of the materialized transaction: the rule's day when it exists
in the current month, otherwise clamped to the month's last day (the
ValueError fallback of check_and_process_recurring_expenses). -/
def ruleTargetDay (d : Ymd) (r : RecurringRule) : Nat :=
  if decide (1 ≤ r.day_of_month ∧ r.day_of_month ≤ daysInMonth d.year d.month)
  then r.day_of_month
  else min r.day_of_month (daysInMonth d.year d.month)

/-- The transaction record handed to add_expense for a due rule: the
rule's fixed amount and category, the description tagged as
auto-generated, dated in the current month at the target day. -/
def materializeRule (d : Ymd) (r : RecurringRule) : Expense :=
  { date := ⟨d.year, d.month, ruleTargetDay d r⟩, amount := r.amount,
    category := r.category, description := "[Auto] " ++ r.description }

/-- One rule's effect on the store in a processor run: the materialized
transaction when the rule is due and its record passes the Expense
validation inside add_expense (the storage append itself always
succeeds), nothing otherwise. -/
def materializeIfDue (d : Ymd) (r : RecurringRule) : Option Expense :=
  if ruleDue d r && (materializeRule d r).validB then some (materializeRule d r) else none

/-- One rule's updated state after a processor run: last_processed is
advanced to the current year-month token exactly when the rule was
materialized successfully. -/
def stepRule (d : Ymd) (r : RecurringRule) : RecurringRule :=
  match materializeIfDue d r with
  | some _ => { r with last_processed := some (monthKey d) }
  | none => r

/-- State acted on by the recurring-transaction processor: the
configured rules plus the transaction store written through
add_expense. -/
structure RecurringState where
  rules : List RecurringRule
  store : List Expense
deriving DecidableEq

/-- The processing loop of check_and_process_recurring_expenses: rules
are visited in order, each due rule appends its transaction to the store
and advances its last_processed token. -/
def processRules (d : Ymd) : List RecurringRule → List Expense → List RecurringRule × List Expense
  | [], store => ([], store)
  | r :: rs, store =>
    match materializeIfDue d r with
    | some tx =>
        let p := processRules d rs (store ++ [tx])
        ({ r with last_processed := some (monthKey d) } :: p.fst, p.snd)
    | none =>
        let p := processRules d rs store
        (r :: p.fst, p.snd)

/-- One full run of the recurring-transaction processor at date d. -/
def processRecurring (d : Ymd) (s : RecurringState) : RecurringState :=
  ⟨(processRules d s.rules s.store).fst, (processRules d s.rules s.store).snd⟩

/-- MainWindow.save_recurring_expense: the rule saved when the user
flags a transaction as recurring, with day_of_month taken from the
entered date and last_processed set to the creation month's
year-month token. -/
def saveRecurringRule (entryDate : Ymd) (amount : ℚ) (category description : String)
    (now : Ymd) : RecurringRule :=
  { amount := amount, category := category, description := description,
    day_of_month := entryDate.day, last_processed := some (monthKey now), enabled := true }

/-- Recurring-credit configuration
(src/gui/main_window.py, check_and_process_recurring_credit). -/
structure CreditConfig where
  enabled : Bool
  day_of_month : Nat
  amount : ℚ
  description : String
  category : String
  last_processed : Option (Nat × Nat)
deriving DecidableEq

/-- The transaction record handed to add_expense by
check_and_process_recurring_credit when the credit rule is due: the code
sets the amount to the negated absolute value of the configured amount. -/
def processRecurringCredit (cfg : CreditConfig) (today : Ymd) : Option Expense :=
  if cfg.enabled && decide (cfg.day_of_month ≤ today.day)
      && decide (cfg.last_processed ≠ some (monthKey today))
      && decide (1 ≤ cfg.day_of_month)
      && decide (cfg.day_of_month ≤ daysInMonth today.year today.month) then
    some { date := ⟨today.year, today.month, cfg.day_of_month⟩,
           amount := -|cfg.amount|, category := cfg.category,
           description := "[Auto] " ++ cfg.description }
  else none

/-- State owned by the ExpenseController: the transaction cache with its
capture timestamp (seconds), and the record list held by the storage
collaborator (the data service). -/
structure ControllerState where
  cache : List Expense
  cacheLastUpdated : Option Nat
  storage : List Expense
deriving DecidableEq

/-- Cache staleness window: _cache_duration_minutes = 5, in seconds. -/
def cacheDurationSeconds : Nat := 300

/-- ExpenseController._is_cache_valid at the given clock reading. -/
def isCacheValid (s : ControllerState) (now : Nat) : Bool :=
  match s.cacheLastUpdated with
  | none => false
  | some t => decide (now - t < cacheDurationSeconds)

/-- ExpenseController._get_expenses_from_service: every raw record is
converted through Expense.from_dict, which validates and trims; any
failure makes the whole load degrade to an empty list. -/
def loadFromService (storage : List Expense) : List Expense :=
  if storage.all Expense.validB then storage.map Expense.normalize else []

/-- ExpenseController._invalidate_cache. -/
def invalidateCache (s : ControllerState) : ControllerState :=
  { s with cache := [], cacheLastUpdated := none }

/-- Result of ExpenseController.get_expenses: the returned snapshot, the
controller state afterwards, and whether the storage collaborator was
consulted. -/
structure GetResult where
  items : List Expense
  state : ControllerState
  usedStorage : Bool
deriving DecidableEq

/-- ExpenseController.get_expenses: serve the cached copy while the
cache is valid, otherwise reload from the storage collaborator and
restamp the cache. -/
def getExpenses (s : ControllerState) (now : Nat) (useCache : Bool) : GetResult :=
  if useCache && isCacheValid s now then ⟨s.cache, s, false⟩
  else
    ⟨loadFromService s.storage,
     { s with cache := loadFromService s.storage, cacheLastUpdated := some now }, true⟩

/-- Behavior of one storage-collaborator call: a returned boolean or a
raised exception. -/
inductive StorageOutcome where
  | ok (success : Bool)
  | exn
deriving DecidableEq

/-- Result messages of the controller's write operations, with the
formatted strings abstracted into constructors. -/
inductive OpMessage where
  | added (warning : BudgetWarning)
  | updated (warning : BudgetWarning)
  | deleted
  | opFailed
  | validationError
  | unexpectedError
deriving DecidableEq

/-- ExpenseController._check_budget_warnings as executed inside
add_expense/update_expense: when an active budget matches the category,
the current transactions are fetched through get_expenses — which may
refresh the cache as a side effect — and the thresholds are compared. -/
def warningRefresh (budgets : List Budget) (s : ControllerState) (now : Nat) (e : Expense) :
    BudgetWarning × ControllerState :=
  if e.date.valid then
    match getBudgetByCategory budgets e.category e.date with
    | some b => (computeBudgetWarning b (getExpenses s now true).items e,
                 (getExpenses s now true).state)
    | none => (.noWarning, s)
  else (.noWarning, s)

/-- Replace the first structurally matching record, as
MockDataService.update_expense does. -/
def replaceFirstMatch : List Expense → Expense → Expense → List Expense
  | [], _, _ => []
  | x :: xs, old, new => if x = old then new :: xs else x :: replaceFirstMatch xs old new

/-- Remove the first structurally matching record, as
MockDataService.delete_expense does. -/
def removeFirstMatch : List Expense → Expense → List Expense
  | [], _ => []
  | x :: xs, e => if x = e then xs else x :: removeFirstMatch xs e

/-- ExpenseController.add_expense: validate, compute the advisory budget
warning, delegate to the storage collaborator, and invalidate the cache
only on successful persistence; every failure, a raised storage
exception included, becomes a (false, message) result. -/
def addExpense (budgets : List Budget) (s : ControllerState) (now : Nat)
    (outcome : StorageOutcome) (date : Ymd) (amount : ℚ) (category description : String) :
    (Bool × OpMessage) × ControllerState :=
  if (Expense.mk date amount category description).validB then
    match outcome with
    | .ok true =>
        ((true, .added (warningRefresh budgets s now (Expense.mk date amount category description)).fst),
          invalidateCache
            { (warningRefresh budgets s now (Expense.mk date amount category description)).snd with
              storage := (warningRefresh budgets s now (Expense.mk date amount category description)).snd.storage
                ++ [Expense.mk date amount category description] })
    | .ok false => ((false, .opFailed),
        (warningRefresh budgets s now (Expense.mk date amount category description)).snd)
    | .exn => ((false, .unexpectedError),
        (warningRefresh budgets s now (Expense.mk date amount category description)).snd)
  else ((false, .validationError), s)

/-- ExpenseController.update_expense: same pattern as add_expense, with
the storage collaborator replacing the structurally matched old record. -/
def updateExpense (budgets : List Budget) (s : ControllerState) (now : Nat)
    (outcome : StorageOutcome) (old : Expense) (date : Ymd) (amount : ℚ)
    (category description : String) : (Bool × OpMessage) × ControllerState :=
  if (Expense.mk date amount category description).validB then
    match outcome with
    | .ok true =>
        ((true, .updated (warningRefresh budgets s now (Expense.mk date amount category description)).fst),
          invalidateCache
            { (warningRefresh budgets s now (Expense.mk date amount category description)).snd with
              storage := replaceFirstMatch
                (warningRefresh budgets s now (Expense.mk date amount category description)).snd.storage
                old (Expense.mk date amount category description) })
    | .ok false => ((false, .opFailed),
        (warningRefresh budgets s now (Expense.mk date amount category description)).snd)
    | .exn => ((false, .unexpectedError),
        (warningRefresh budgets s now (Expense.mk date amount category description)).snd)
  else ((false, .validationError), s)

/-- ExpenseController.delete_expense: delegate to the storage
collaborator and invalidate the cache only on success; failures become
(false, message) results. -/
def deleteExpense (s : ControllerState) (outcome : StorageOutcome) (e : Expense) :
    (Bool × OpMessage) × ControllerState :=
  match outcome with
  | .ok true => ((true, .deleted), invalidateCache { s with storage := removeFirstMatch s.storage e })
  | .ok false => ((false, .opFailed), s)
  | .exn => ((false, .unexpectedError), s)

/-- Text-query stage of search_expenses: applied only for a non-empty
query string. -/
def queryStage (l : List Expense) (query : String) : List Expense :=
  if query.isEmpty then l else ExpenseFilter.byDescriptionContains l query

/-- Category stage of search_expenses: applied only for a non-empty
category string. -/
def categoryStage (l : List Expense) (category : String) : List Expense :=
  if category.isEmpty then l else ExpenseFilter.byCategory l category

/-- Date-range stage of search_expenses: applied only when both bounds
are supplied. -/
def dateStage (l : List Expense) (startDate endDate : Option Ymd) : List Expense :=
  match startDate, endDate with
  | some a, some b => ExpenseFilter.byDateRange l a b
  | _, _ => l

/-- Amount-range stage of search_expenses: applied only when both bounds
are supplied. -/
def amountStage (l : List Expense) (minAmount maxAmount : Option ℚ) : List Expense :=
  match minAmount, maxAmount with
  | some a, some b => ExpenseFilter.byAmountRange l a b
  | _, _ => l

/-- ExpenseController.search_expenses: the four filter stages applied
sequentially in the fixed order text query, category, date range, amount
range. -/
def searchExpenses (expenses : List Expense) (query category : String)
    (startDate endDate : Option Ymd) (minAmount maxAmount : Option ℚ) : List Expense :=
  amountStage (dateStage (categoryStage (queryStage expenses query) category)
    startDate endDate) minAmount maxAmount

/-- Time of day at minute precision; a second-precision current time
compares strictly below the scheduled time exactly when this
lexicographic hour:minute comparison holds, since the scheduled time has
its seconds zeroed. -/
structure TimeOfDay where
  hour : Nat
  minute : Nat
deriving DecidableEq

/-- Strict time-of-day comparison. -/
def timeLtb (a b : TimeOfDay) : Bool :=
  decide (a.hour < b.hour ∨ (a.hour = b.hour ∧ a.minute < b.minute))

/-- Email schedule configuration (src/services/email_scheduler.py). -/
structure ScheduleConfig where
  enabled : Bool
  day_of_month : Nat
  hour : Nat
  minute : Nat
deriving DecidableEq

/-- A scheduled date-time as reported by get_next_scheduled_time. -/
structure NextTime where
  date : Ymd
  time : TimeOfDay
deriving DecidableEq

/-- EmailScheduler.get_next_scheduled_time: none when disabled;
otherwise this month's target day when still ahead, today when the
target time has not yet elapsed on the target day, else the next month
with the day clamped to that month's length.  Every construction of an
invalid calendar date raises in the source and is swallowed into a none
result. -/
def getNextScheduledTime (cfg : ScheduleConfig) (today : Ymd) (now : TimeOfDay) :
    Option NextTime :=
  if !cfg.enabled then none
  else if !(decide (cfg.hour ≤ 23) && decide (cfg.minute ≤ 59)) then none
  else if decide (today.day < cfg.day_of_month) then
    if decide (1 ≤ cfg.day_of_month) && decide (cfg.day_of_month ≤ daysInMonth today.year today.month)
    then some ⟨⟨today.year, today.month, cfg.day_of_month⟩, ⟨cfg.hour, cfg.minute⟩⟩
    else none
  else if decide (today.day = cfg.day_of_month) && timeLtb now ⟨cfg.hour, cfg.minute⟩ then
    some ⟨today, ⟨cfg.hour, cfg.minute⟩⟩
  else if decide (today.month = 12) then
    if decide (1 ≤ cfg.day_of_month) && decide (cfg.day_of_month ≤ 31)
    then some ⟨⟨today.year + 1, 1, cfg.day_of_month⟩, ⟨cfg.hour, cfg.minute⟩⟩
    else none
  else if decide (1 ≤ cfg.day_of_month)
      && decide (cfg.day_of_month ≤ daysInMonth today.year (today.month + 1)) then
    some ⟨⟨today.year, today.month + 1, cfg.day_of_month⟩, ⟨cfg.hour, cfg.minute⟩⟩
  else if decide (1 ≤ min cfg.day_of_month (daysInMonth today.year (today.month + 1))) then
    some ⟨⟨today.year, today.month + 1,
          min cfg.day_of_month (daysInMonth today.year (today.month + 1))⟩,
          ⟨cfg.hour, cfg.minute⟩⟩
  else none

/-- Non-strict comparison on scheduler date-times, ordering first by
date and then by time of day at minute precision. -/
def nextTimeLe (d1 : Ymd) (t1 : TimeOfDay) (d2 : Ymd) (t2 : TimeOfDay) : Bool :=
  decide (d1.year < d2.year ∨ (d1.year = d2.year ∧ (d1.month < d2.month
    ∨ (d1.month = d2.month ∧ (d1.day < d2.day ∨ (d1.day = d2.day
      ∧ (t1.hour < t2.hour ∨ (t1.hour = t2.hour ∧ t1.minute ≤ t2.minute))))))))

/-- C9: the positive-only and negative-only totals split the signed
total: income plus expenses equals the net amount for every transaction
list (src/models/expense.py, ExpenseAggregator). -/
theorem income_plus_expenses_eq_total (expenses : List Expense) :
    ExpenseAggregator.totalIncomeOnly expenses + ExpenseAggregator.totalExpensesOnly expenses
      = ExpenseAggregator.totalAmount expenses := by
  induction expenses with
  | nil =>
      simp [ExpenseAggregator.totalIncomeOnly, ExpenseAggregator.totalExpensesOnly,
        ExpenseAggregator.totalAmount]
  | cons e t ih =>
      rcases lt_trichotomy e.amount 0 with h | h | h
      · have h' : ¬ (0 < e.amount) := not_lt.mpr (le_of_lt h)
        simp [ExpenseAggregator.totalIncomeOnly, ExpenseAggregator.totalExpensesOnly,
          ExpenseAggregator.totalAmount, List.filter_cons, h, h'] at ih ⊢
        linarith [ih]
      · simp [ExpenseAggregator.totalIncomeOnly, ExpenseAggregator.totalExpensesOnly,
          ExpenseAggregator.totalAmount, List.filter_cons, h] at ih ⊢
        linarith [ih]
      · have h' : ¬ (e.amount < 0) := not_lt.mpr (le_of_lt h)
        simp [ExpenseAggregator.totalIncomeOnly, ExpenseAggregator.totalExpensesOnly,
          ExpenseAggregator.totalAmount, List.filter_cons, h, h'] at ih ⊢
        linarith [ih]

/-- Helper: a list of nonpositive amounts sums to a nonpositive value. -/
theorem sum_map_amount_nonpos :
    ∀ (l : List Expense), (∀ e ∈ l, e.amount ≤ 0) → (l.map (fun e => e.amount)).sum ≤ 0
  | [], _ => by simp
  | e :: t, h => by
      have he : e.amount ≤ 0 := h e (List.mem_cons_self e t)
      have ht : ∀ x ∈ t, x.amount ≤ 0 := fun x hx => h x (List.mem_cons_of_mem e hx)
      have ih := sum_map_amount_nonpos t ht
      simp only [List.map_cons, List.sum_cons]
      linarith

/-- Helper: for nonpositive amounts, the absolute value of the sum is
the sum of the absolute values. -/
theorem abs_sum_amounts_nonpos :
    ∀ (l : List Expense), (∀ e ∈ l, e.amount ≤ 0) →
      |(l.map (fun e => e.amount)).sum| = (l.map (fun e => |e.amount|)).sum
  | [], _ => by simp
  | e :: t, h => by
      have he : e.amount ≤ 0 := h e (List.mem_cons_self e t)
      have ht : ∀ x ∈ t, x.amount ≤ 0 := fun x hx => h x (List.mem_cons_of_mem e hx)
      have ih := abs_sum_amounts_nonpos t ht
      have hs := sum_map_amount_nonpos t ht
      simp only [List.map_cons, List.sum_cons]
      rw [abs_of_nonpos (add_nonpos he hs), abs_of_nonpos he]
      rw [abs_of_nonpos hs] at ih
      linarith

/-- Helper: characterization of get_spending_for_month as a single
filtered sum of absolute values. -/
theorem spendingForMonth_characterization (b : Budget) (y m : Nat) (expenses : List Expense) :
    b.getSpendingForMonth y m expenses =
      ((expenses.filter (fun e => e.category.toLower == b.category.toLower
          && e.isInMonth y m && decide (e.amount < 0))).map (fun e => |e.amount|)).sum := by
  have hfil : ((ExpenseFilter.byMonth (ExpenseFilter.byCategory expenses b.category) y m).filter
      (fun e => decide (e.amount < 0)))
      = expenses.filter (fun e => e.category.toLower == b.category.toLower
          && e.isInMonth y m && decide (e.amount < 0)) := by
    unfold ExpenseFilter.byCategory ExpenseFilter.byMonth
    rw [List.filter_filter, List.filter_filter]
    exact List.filter_congr (by
      intro x _
      cases hc : (x.category.toLower == b.category.toLower) <;>
        cases hm : (x.isInMonth y m) <;>
        cases ha : (decide (x.amount < 0)) <;>
        simp [hc, hm, ha])
  unfold Budget.getSpendingForMonth
  rw [hfil]
  refine abs_sum_amounts_nonpos _ (by
    intro x hx
    have hmem := (List.mem_filter.mp hx).2
    simp only [Bool.and_eq_true, decide_eq_true_eq] at hmem
    linarith [hmem.2])

/-- C3: get_spending_for_month is the sum of the absolute values of
exactly the transactions matching the budget's category
case-insensitively, lying in the target month, and carrying a negative
amount; and on the spec's concrete example of a -50 expense and a +1000
credit it returns 50 (src/models/budget.py, Budget.get_spending_for_month). -/
theorem getSpendingForMonth_eq_sum_abs (b : Budget) (y m : Nat) (expenses : List Expense) :
    b.getSpendingForMonth y m expenses =
      ((expenses.filter (fun e => e.category.toLower == b.category.toLower
          && e.isInMonth y m && decide (e.amount < 0))).map (fun e => |e.amount|)).sum ∧
    Budget.getSpendingForMonth
      { category := "Food", monthly_limit := 200, start_date := ⟨2024, 1, 1⟩,
        end_date := none, is_active := true } 2024 1
      [{ date := ⟨2024, 1, 10⟩, amount := -50, category := "Food", description := "" },
       { date := ⟨2024, 1, 12⟩, amount := 1000, category := "Food", description := "refund" }]
      = 50 := by
  refine ⟨spendingForMonth_characterization b y m expenses, ?_⟩
  rw [spendingForMonth_characterization]
  norm_num [List.filter, Expense.isInMonth, Ymd.valid, daysInMonth, isLeapYear]

/-- C1 (code bug): in the spec's scenario — budget limit 200 for the
category, current-month expenses of -80 and -90 (170 spent) — adding a
further -40 expense produces no warning at all (the code adds the signed
negative amount to the absolute spending, so the projected value drops
to 130), and adding -10 likewise produces no warning, contradicting the
claimed overage and 90 percent warnings
(src/controllers/expense_controller.py, _check_budget_warnings). -/
theorem budget_warning_silent_on_spec_scenario :
    checkBudgetWarnings
      [{ category := "Food", monthly_limit := 200, start_date := ⟨2024, 1, 1⟩,
         end_date := none, is_active := true }]
      [{ date := ⟨2024, 6, 3⟩, amount := -80, category := "Food", description := "" },
       { date := ⟨2024, 6, 7⟩, amount := -90, category := "Food", description := "" }]
      { date := ⟨2024, 6, 15⟩, amount := -40, category := "Food", description := "" }
      = BudgetWarning.noWarning ∧
    checkBudgetWarnings
      [{ category := "Food", monthly_limit := 200, start_date := ⟨2024, 1, 1⟩,
         end_date := none, is_active := true }]
      [{ date := ⟨2024, 6, 3⟩, amount := -80, category := "Food", description := "" },
       { date := ⟨2024, 6, 7⟩, amount := -90, category := "Food", description := "" }]
      { date := ⟨2024, 6, 15⟩, amount := -10, category := "Food", description := "" }
      = BudgetWarning.noWarning := by
  constructor <;>
  · norm_num [checkBudgetWarnings, getBudgetByCategory, List.find?, Budget.isActiveForDate,
      computeBudgetWarning, spendingForMonth_characterization, List.filter,
      Expense.isInMonth, Ymd.valid, Ymd.ltb, daysInMonth, isLeapYear]

/-- Helper: the store after a processor run is the old store followed by
the materializations of the due rules, in rule order. -/
theorem processRules_snd (d : Ymd) :
    ∀ (rs : List RecurringRule) (store : List Expense),
      (processRules d rs store).snd = store ++ rs.filterMap (materializeIfDue d)
  | [], store => by simp [processRules]
  | r :: rs, store => by
      cases h : materializeIfDue d r with
      | some tx =>
          simp [processRules, h, processRules_snd d rs (store ++ [tx]), List.filterMap_cons]
      | none => simp [processRules, h, processRules_snd d rs store, List.filterMap_cons]

/-- Helper: the rule list after a processor run is the pointwise stepped
rule list. -/
theorem processRules_fst (d : Ymd) :
    ∀ (rs : List RecurringRule) (store : List Expense),
      (processRules d rs store).fst = rs.map (stepRule d)
  | [], store => by simp [processRules]
  | r :: rs, store => by
      cases h : materializeIfDue d r with
      | some tx => simp [processRules, h, stepRule, processRules_fst d rs (store ++ [tx])]
      | none => simp [processRules, h, stepRule, processRules_fst d rs store]

/-- Helper: closed form of one processor run. -/
theorem processRecurring_run (d : Ymd) (s : RecurringState) :
    processRecurring d s
      = ⟨s.rules.map (stepRule d), s.store ++ s.rules.filterMap (materializeIfDue d)⟩ := by
  simp [processRecurring, processRules_fst, processRules_snd]

/-- Helper: a stepped rule is never due again in the same month. -/
theorem materializeIfDue_stepRule (d : Ymd) (r : RecurringRule) :
    materializeIfDue d (stepRule d r) = none := by
  cases h : materializeIfDue d r with
  | none =>
      have hs : stepRule d r = r := by simp [stepRule, h]
      rw [hs]
      exact h
  | some tx =>
      have hs : stepRule d r = { r with last_processed := some (monthKey d) } := by
        simp [stepRule, h]
      rw [hs]
      simp [materializeIfDue, ruleDue]

/-- Helper: stepping a rule twice in the same month equals stepping it
once. -/
theorem stepRule_idem (d : Ymd) (r : RecurringRule) :
    stepRule d (stepRule d r) = stepRule d r := by
  cases h : materializeIfDue d r with
  | none => simp [stepRule, h]
  | some tx =>
      have h2 : materializeIfDue d { r with last_processed := some (monthKey d) } = none := by
        simp [materializeIfDue, ruleDue]
      simp [stepRule, h, h2]

/-- Helper: running the recurring processor twice at the same date gives
the same state as running it once. -/
theorem processRecurring_idem (d : Ymd) (s : RecurringState) :
    processRecurring d (processRecurring d s) = processRecurring d s := by
  have h1 : ∀ rules : List RecurringRule,
      (rules.map (stepRule d)).map (stepRule d) = rules.map (stepRule d) := by
    intro rules
    induction rules with
    | nil => simp
    | cons r t ih => simp [stepRule_idem, ih]
  have h2 : ∀ rules : List RecurringRule,
      (rules.map (stepRule d)).filterMap (materializeIfDue d) = [] := by
    intro rules
    induction rules with
    | nil => simp
    | cons r t ih => simp [materializeIfDue_stepRule, ih]
  rw [processRecurring_run d s, processRecurring_run]
  simp [h1, h2]

/-- Helper: any positive number of processor runs at the same date
equals a single run. -/
theorem processRecurring_iterate (d : Ymd) (s : RecurringState) :
    ∀ n, (processRecurring d)^[n + 1] s = processRecurring d s := by
  intro n
  induction n with
  | zero => simp
  | succ k ih =>
      rw [Function.iterate_succ_apply', ih, processRecurring_idem]

/-- C2: a run of the recurring processor appends exactly the due rules'
materializations to the store and advances their last_processed tokens;
a rule that is enabled, whose day has passed, that was not yet processed
this month and whose record validates is materialized on the first run
(its transaction lands in the store, its token advances to the current
month), and every further run in the same month is a no-op
(src/gui/main_window.py, check_and_process_recurring_expenses). -/
theorem recurring_processor_exactly_once (d : Ymd) (s : RecurringState) (r : RecurringRule)
    (hmem : r ∈ s.rules) (hdue : ruleDue d r = true)
    (hval : (materializeRule d r).validB = true) :
    (processRecurring d s).store = s.store ++ s.rules.filterMap (materializeIfDue d)
    ∧ materializeIfDue d r = some (materializeRule d r)
    ∧ materializeRule d r ∈ (processRecurring d s).store
    ∧ (processRecurring d s).rules = s.rules.map (stepRule d)
    ∧ (stepRule d r).last_processed = some (monthKey d)
    ∧ ∀ n, (processRecurring d)^[n + 1] s = processRecurring d s := by
  have h1 : (processRecurring d s).store = s.store ++ s.rules.filterMap (materializeIfDue d) := by
    rw [processRecurring_run]
  have h2 : materializeIfDue d r = some (materializeRule d r) := by
    simp [materializeIfDue, hdue, hval]
  have h3 : materializeRule d r ∈ (processRecurring d s).store := by
    rw [h1]
    exact List.mem_append_right _ (List.mem_filterMap.mpr ⟨r, hmem, h2⟩)
  have h4 : (processRecurring d s).rules = s.rules.map (stepRule d) := by
    rw [processRecurring_run]
  have h5 : (stepRule d r).last_processed = some (monthKey d) := by
    simp [stepRule, h2]
  exact ⟨h1, h2, h3, h4, h5, processRecurring_iterate d s⟩

/-- Witness for C2 at a concrete date, rule and state. -/
theorem recurring_processor_exactly_once_witness :
    (processRecurring ⟨2024, 6, 20⟩
        ⟨[⟨-50, "Rent", "flat", 15, some (2024, 5), true⟩], []⟩).store
      = [] ++ ([⟨-50, "Rent", "flat", 15, some (2024, 5), true⟩] :
          List RecurringRule).filterMap (materializeIfDue ⟨2024, 6, 20⟩)
    ∧ materializeIfDue ⟨2024, 6, 20⟩ ⟨-50, "Rent", "flat", 15, some (2024, 5), true⟩
      = some (materializeRule ⟨2024, 6, 20⟩ ⟨-50, "Rent", "flat", 15, some (2024, 5), true⟩)
    ∧ materializeRule ⟨2024, 6, 20⟩ ⟨-50, "Rent", "flat", 15, some (2024, 5), true⟩
      ∈ (processRecurring ⟨2024, 6, 20⟩
          ⟨[⟨-50, "Rent", "flat", 15, some (2024, 5), true⟩], []⟩).store
    ∧ (processRecurring ⟨2024, 6, 20⟩
        ⟨[⟨-50, "Rent", "flat", 15, some (2024, 5), true⟩], []⟩).rules
      = ([⟨-50, "Rent", "flat", 15, some (2024, 5), true⟩] :
          List RecurringRule).map (stepRule ⟨2024, 6, 20⟩)
    ∧ (stepRule ⟨2024, 6, 20⟩ ⟨-50, "Rent", "flat", 15, some (2024, 5), true⟩).last_processed
      = some (monthKey ⟨2024, 6, 20⟩)
    ∧ ∀ n, (processRecurring ⟨2024, 6, 20⟩)^[n + 1]
        ⟨[⟨-50, "Rent", "flat", 15, some (2024, 5), true⟩], []⟩
      = processRecurring ⟨2024, 6, 20⟩
          ⟨[⟨-50, "Rent", "flat", 15, some (2024, 5), true⟩], []⟩ :=
  recurring_processor_exactly_once ⟨2024, 6, 20⟩
    ⟨[⟨-50, "Rent", "flat", 15, some (2024, 5), true⟩], []⟩
    ⟨-50, "Rent", "flat", 15, some (2024, 5), true⟩
    (by decide) (by decide) (by decide)

/-- C10: a rule created through the make-this-recurring path carries
last_processed equal to the creation month's token, so within that month
the processor's materialization guard rejects it, a run leaves it
unchanged wherever it sits in the rule list and contributes nothing from
it to the store, and any number of runs equals one run
(src/gui/main_window.py, save_recurring_expense and
check_and_process_recurring_expenses). -/
theorem recurring_rule_creation_month_guard
    (entryDate : Ymd) (amount : ℚ) (category description : String) (now d : Ymd)
    (h : monthKey d = monthKey now) :
    (saveRecurringRule entryDate amount category description now).last_processed
        = some (monthKey now)
    ∧ materializeIfDue d (saveRecurringRule entryDate amount category description now) = none
    ∧ stepRule d (saveRecurringRule entryDate amount category description now)
        = saveRecurringRule entryDate amount category description now
    ∧ (∀ (rs1 rs2 : List RecurringRule) (store : List Expense),
        processRecurring d
            ⟨rs1 ++ saveRecurringRule entryDate amount category description now :: rs2, store⟩
          = ⟨rs1.map (stepRule d)
                ++ saveRecurringRule entryDate amount category description now
                :: rs2.map (stepRule d),
             store ++ (rs1.filterMap (materializeIfDue d)
                ++ rs2.filterMap (materializeIfDue d))⟩)
    ∧ ∀ (s : RecurringState) (n : Nat), (processRecurring d)^[n + 1] s = processRecurring d s := by
  have hnone : materializeIfDue d (saveRecurringRule entryDate amount category description now)
      = none := by
    simp [materializeIfDue, ruleDue, saveRecurringRule, h]
  have hstep : stepRule d (saveRecurringRule entryDate amount category description now)
      = saveRecurringRule entryDate amount category description now := by
    simp [stepRule, hnone]
  refine ⟨rfl, hnone, hstep, ?_, fun s n => processRecurring_iterate d s n⟩
  intro rs1 rs2 store
  rw [processRecurring_run]
  simp [List.map_append, List.filterMap_append, List.filterMap_cons, hnone, hstep]

/-- Witness for C10 at a concrete rule created and processed in the same
month. -/
theorem recurring_rule_creation_month_guard_witness :
    (saveRecurringRule ⟨2024, 6, 15⟩ (-25) "Gym" "membership" ⟨2024, 6, 15⟩).last_processed
        = some (monthKey ⟨2024, 6, 15⟩)
    ∧ materializeIfDue ⟨2024, 6, 28⟩
        (saveRecurringRule ⟨2024, 6, 15⟩ (-25) "Gym" "membership" ⟨2024, 6, 15⟩) = none
    ∧ stepRule ⟨2024, 6, 28⟩
        (saveRecurringRule ⟨2024, 6, 15⟩ (-25) "Gym" "membership" ⟨2024, 6, 15⟩)
        = saveRecurringRule ⟨2024, 6, 15⟩ (-25) "Gym" "membership" ⟨2024, 6, 15⟩
    ∧ (∀ (rs1 rs2 : List RecurringRule) (store : List Expense),
        processRecurring ⟨2024, 6, 28⟩
            ⟨rs1 ++ saveRecurringRule ⟨2024, 6, 15⟩ (-25) "Gym" "membership" ⟨2024, 6, 15⟩
                :: rs2, store⟩
          = ⟨rs1.map (stepRule ⟨2024, 6, 28⟩)
                ++ saveRecurringRule ⟨2024, 6, 15⟩ (-25) "Gym" "membership" ⟨2024, 6, 15⟩
                :: rs2.map (stepRule ⟨2024, 6, 28⟩),
             store ++ (rs1.filterMap (materializeIfDue ⟨2024, 6, 28⟩)
                ++ rs2.filterMap (materializeIfDue ⟨2024, 6, 28⟩))⟩)
    ∧ ∀ (s : RecurringState) (n : Nat),
        (processRecurring ⟨2024, 6, 28⟩)^[n + 1] s = processRecurring ⟨2024, 6, 28⟩ s :=
  recurring_rule_creation_month_guard ⟨2024, 6, 15⟩ (-25) "Gym" "membership"
    ⟨2024, 6, 15⟩ ⟨2024, 6, 28⟩ (by decide)

/-- C4 (code bug): the recurring-credit processor hands add_expense a
transaction whose amount is the negated absolute value of the configured
credit amount, so a credit rule of amount 100 materializes a negative
-100 record, although the data model documents credits as positive
(src/gui/main_window.py, check_and_process_recurring_credit). -/
theorem recurring_credit_materializes_negative_amount :
    processRecurringCredit
        { enabled := true, day_of_month := 22, amount := 100,
          description := "Monthly allowance", category := "Income", last_processed := none }
        ⟨2024, 6, 25⟩
      = some { date := ⟨2024, 6, 22⟩, amount := -100, category := "Income",
               description := "[Auto] Monthly allowance" }
    ∧ (-100 : ℚ) < 0 := by
  constructor
  · have habs : -|(100 : ℚ)| = -100 := by norm_num
    simp only [processRecurringCredit, monthKey, habs]
    norm_num [daysInMonth]
    decide
  · norm_num

/-- Helper: membership through the text-query stage. -/
theorem mem_queryStage (l : List Expense) (q : String) (e : Expense) :
    e ∈ queryStage l q ↔ e ∈ l ∧ (q.isEmpty = false →
      charsContain e.description.toLower.data q.toLower.data = true) := by
  unfold queryStage
  cases hq : q.isEmpty <;>
    simp [ExpenseFilter.byDescriptionContains, List.mem_filter, hq]

/-- Helper: membership through the category stage. -/
theorem mem_categoryStage (l : List Expense) (c : String) (e : Expense) :
    e ∈ categoryStage l c ↔ e ∈ l ∧ (c.isEmpty = false →
      (e.category.toLower == c.toLower) = true) := by
  unfold categoryStage
  cases hc : c.isEmpty <;>
    simp [ExpenseFilter.byCategory, List.mem_filter, hc]

/-- Helper: membership through the date-range stage. -/
theorem mem_dateStage (l : List Expense) (sd ed : Option Ymd) (e : Expense) :
    e ∈ dateStage l sd ed ↔ e ∈ l ∧ (∀ a b, sd = some a → ed = some b →
      e.isInDateRange a b = true) := by
  cases sd with
  | none => simp [dateStage]
  | some a =>
      cases ed with
      | none => simp [dateStage]
      | some b => simp [dateStage, ExpenseFilter.byDateRange, List.mem_filter]

/-- Helper: membership through the amount-range stage. -/
theorem mem_amountStage (l : List Expense) (mn mx : Option ℚ) (e : Expense) :
    e ∈ amountStage l mn mx ↔ e ∈ l ∧ (∀ a b, mn = some a → mx = some b →
      a ≤ e.amount ∧ e.amount ≤ b) := by
  cases mn with
  | none => simp [amountStage]
  | some a =>
      cases mx with
      | none => simp [amountStage]
      | some b => simp [amountStage, ExpenseFilter.byAmountRange, List.mem_filter]

/-- C5: search_expenses has AND semantics over its supplied filters — a
transaction is returned exactly when it passes the text query (when
non-empty), the category match (when non-empty), the date range (only
when both bounds are given) and the amount range (only when both bounds
are given); with an empty query, category Food, both January 2024
bounds, and at most one amount bound, the result is exactly the
case-insensitive Food transactions dated within January 2024 inclusive
(src/controllers/expense_controller.py, search_expenses). -/
theorem search_filters_and_semantics (expenses : List Expense) (query category : String)
    (sd ed : Option Ymd) (mn mx : Option ℚ) (e : Expense) :
    (e ∈ searchExpenses expenses query category sd ed mn mx ↔
      e ∈ expenses
      ∧ (query.isEmpty = false →
          charsContain e.description.toLower.data query.toLower.data = true)
      ∧ (category.isEmpty = false → (e.category.toLower == category.toLower) = true)
      ∧ (∀ a b, sd = some a → ed = some b → e.isInDateRange a b = true)
      ∧ (∀ a b, mn = some a → mx = some b → a ≤ e.amount ∧ e.amount ≤ b))
    ∧ ∀ (mn2 mx2 : Option ℚ), mn2 = none ∨ mx2 = none →
        searchExpenses expenses "" "Food" (some ⟨2024, 1, 1⟩) (some ⟨2024, 1, 31⟩) mn2 mx2
          = expenses.filter (fun x => (x.category.toLower == "Food".toLower)
              && x.isInDateRange ⟨2024, 1, 1⟩ ⟨2024, 1, 31⟩) := by
  constructor
  · unfold searchExpenses
    rw [mem_amountStage, mem_dateStage, mem_categoryStage, mem_queryStage]
    tauto
  · intro mn2 mx2 h
    have hcomp : ExpenseFilter.byDateRange (ExpenseFilter.byCategory expenses "Food")
        ⟨2024, 1, 1⟩ ⟨2024, 1, 31⟩
        = expenses.filter (fun x => (x.category.toLower == "Food".toLower)
            && x.isInDateRange ⟨2024, 1, 1⟩ ⟨2024, 1, 31⟩) := by
      unfold ExpenseFilter.byCategory ExpenseFilter.byDateRange
      rw [List.filter_filter]
      exact List.filter_congr (by
        intro x _
        cases h1 : (x.category.toLower == "Food".toLower) <;>
          cases h2 : x.isInDateRange ⟨2024, 1, 1⟩ ⟨2024, 1, 31⟩ <;> simp [h1, h2])
    have hqc : dateStage (categoryStage (queryStage expenses "") "Food")
        (some ⟨2024, 1, 1⟩) (some ⟨2024, 1, 31⟩)
        = expenses.filter (fun x => (x.category.toLower == "Food".toLower)
            && x.isInDateRange ⟨2024, 1, 1⟩ ⟨2024, 1, 31⟩) := by
      rw [show queryStage expenses "" = expenses from rfl]
      rw [show categoryStage expenses "Food" = ExpenseFilter.byCategory expenses "Food" from rfl]
      rw [show dateStage (ExpenseFilter.byCategory expenses "Food")
        (some ⟨2024, 1, 1⟩) (some ⟨2024, 1, 31⟩)
        = ExpenseFilter.byDateRange (ExpenseFilter.byCategory expenses "Food")
            ⟨2024, 1, 1⟩ ⟨2024, 1, 31⟩ from rfl]
      exact hcomp
    unfold searchExpenses
    rw [hqc]
    rcases h with h | h <;> subst h
    · cases mx2 <;> rfl
    · cases mn2 <;> rfl

/-- Witness for C5: the scenario instance with only one amount bound
supplied, at a concrete transaction list. -/
theorem search_filters_and_semantics_witness :
    searchExpenses
        [⟨⟨2024, 1, 10⟩, -12, "food", "lunch"⟩, ⟨⟨2024, 2, 2⟩, -9, "Food", "dinner"⟩,
         ⟨⟨2024, 1, 20⟩, -30, "Travel", "bus"⟩]
        "" "Food" (some ⟨2024, 1, 1⟩) (some ⟨2024, 1, 31⟩) none (some 5)
      = ([⟨⟨2024, 1, 10⟩, -12, "food", "lunch"⟩, ⟨⟨2024, 2, 2⟩, -9, "Food", "dinner"⟩,
          ⟨⟨2024, 1, 20⟩, -30, "Travel", "bus"⟩] : List Expense).filter
          (fun x => (x.category.toLower == "Food".toLower)
            && x.isInDateRange ⟨2024, 1, 1⟩ ⟨2024, 1, 31⟩) :=
  (search_filters_and_semantics
      [⟨⟨2024, 1, 10⟩, -12, "food", "lunch"⟩, ⟨⟨2024, 2, 2⟩, -9, "Food", "dinner"⟩,
       ⟨⟨2024, 1, 20⟩, -30, "Travel", "bus"⟩]
      "" "Food" (some ⟨2024, 1, 1⟩) (some ⟨2024, 1, 31⟩) none (some 5)
      ⟨⟨2024, 1, 10⟩, -12, "food", "lunch"⟩).2 none (some 5) (Or.inl rfl)

/-- C6 counterexample: a trace refuting the claim as stated.  After a
load at time 0, get calls at times 200 and 400 are two
get_expenses(use_cache=true) calls within the 5-minute window of each
other with no intervening write, the earlier one serves from cache, yet
the later one performs a storage round-trip because the cache timestamp
(set at time 0) has expired. -/
theorem cache_within_window_roundtrip_counterexample :
    (400 : Nat) - 200 < cacheDurationSeconds
    ∧ (getExpenses ((getExpenses ((getExpenses
          (⟨[], none, [⟨⟨2024, 1, 10⟩, -5, "Food", ""⟩]⟩ : ControllerState)
          0 true).state) 200 true).state) 400 true).usedStorage = true
    ∧ (getExpenses ((getExpenses
          (⟨[], none, [⟨⟨2024, 1, 10⟩, -5, "Food", ""⟩]⟩ : ControllerState)
          0 true).state) 200 true).usedStorage = false := by
  refine ⟨by norm_num [cacheDurationSeconds], ?_, ?_⟩ <;> decide

/-- C6 amended: when the first of the two calls itself (re)loaded from
storage, a second get_expenses(use_cache=true) within 5 minutes of it
returns the identical list, leaves the state unchanged and performs no
storage round-trip; and a successful add_expense in between invalidates
the cache so that the next get_expenses hits storage again
(src/controllers/expense_controller.py, get_expenses, _invalidate_cache,
add_expense). -/
theorem cache_within_window_no_roundtrip (budgets : List Budget) (s : ControllerState)
    (t0 t1 tA : Nat) (e : Expense)
    (h0 : (getExpenses s t0 true).usedStorage = true)
    (h1 : t1 - t0 < cacheDurationSeconds)
    (hval : e.validB = true) :
    (getExpenses (getExpenses s t0 true).state t1 true).items = (getExpenses s t0 true).items
    ∧ (getExpenses (getExpenses s t0 true).state t1 true).usedStorage = false
    ∧ (getExpenses (getExpenses s t0 true).state t1 true).state = (getExpenses s t0 true).state
    ∧ (getExpenses (addExpense budgets (getExpenses s t0 true).state tA (.ok true)
          e.date e.amount e.category e.description).snd t1 true).usedStorage = true := by
  by_cases hc : isCacheValid s t0 = true
  · simp [getExpenses, hc] at h0
  · have hc' : isCacheValid s t0 = false := by simpa using hc
    have hfst : getExpenses s t0 true
        = ⟨loadFromService s.storage,
           { s with cache := loadFromService s.storage, cacheLastUpdated := some t0 }, true⟩ := by
      simp [getExpenses, hc']
    have hval1 : isCacheValid
        { s with cache := loadFromService s.storage, cacheLastUpdated := some t0 } t1 = true := by
      simp [isCacheValid, h1]
    have hsnd : getExpenses
        { s with cache := loadFromService s.storage, cacheLastUpdated := some t0 } t1 true
        = ⟨loadFromService s.storage,
           { s with cache := loadFromService s.storage, cacheLastUpdated := some t0 }, false⟩ := by
      simp [getExpenses, hval1]
    have hmk : (Expense.mk e.date e.amount e.category e.description) = e := rfl
    refine ⟨?_, ?_, ?_, ?_⟩
    · simp [hfst, hsnd]
    · simp [hfst, hsnd]
    · simp [hfst, hsnd]
    · simp [hfst, addExpense, hmk, hval, invalidateCache, getExpenses, isCacheValid]

/-- Witness for C6 amended at a concrete trace. -/
theorem cache_within_window_no_roundtrip_witness :
    (getExpenses (getExpenses (⟨[], none, [⟨⟨2024, 1, 10⟩, -5, "Food", ""⟩]⟩ : ControllerState)
          0 true).state 200 true).items
      = (getExpenses (⟨[], none, [⟨⟨2024, 1, 10⟩, -5, "Food", ""⟩]⟩ : ControllerState)
          0 true).items
    ∧ (getExpenses (getExpenses (⟨[], none, [⟨⟨2024, 1, 10⟩, -5, "Food", ""⟩]⟩ : ControllerState)
          0 true).state 200 true).usedStorage = false
    ∧ (getExpenses (getExpenses (⟨[], none, [⟨⟨2024, 1, 10⟩, -5, "Food", ""⟩]⟩ : ControllerState)
          0 true).state 200 true).state
      = (getExpenses (⟨[], none, [⟨⟨2024, 1, 10⟩, -5, "Food", ""⟩]⟩ : ControllerState)
          0 true).state
    ∧ (getExpenses (addExpense []
          (getExpenses (⟨[], none, [⟨⟨2024, 1, 10⟩, -5, "Food", ""⟩]⟩ : ControllerState)
            0 true).state 50 (.ok true)
          ⟨2024, 2, 2⟩ (-7) "Food" "").snd 200 true).usedStorage = true :=
  cache_within_window_no_roundtrip [] ⟨[], none, [⟨⟨2024, 1, 10⟩, -5, "Food", ""⟩]⟩
    0 200 50 ⟨⟨2024, 2, 2⟩, -7, "Food", ""⟩ (by decide) (by decide) (by decide)

/-- Helper: the warning computation inside add/update either leaves the
cache timestamp alone or refreshes it to the current instant — it never
clears it. -/
theorem warningRefresh_cacheLastUpdated (budgets : List Budget) (s : ControllerState)
    (now : Nat) (x : Expense) :
    (warningRefresh budgets s now x).snd.cacheLastUpdated = s.cacheLastUpdated
    ∨ (warningRefresh budgets s now x).snd.cacheLastUpdated = some now := by
  unfold warningRefresh
  by_cases hd : x.date.valid = true
  · rw [if_pos hd]
    cases hb : getBudgetByCategory budgets x.category x.date with
    | none => exact Or.inl rfl
    | some b =>
        by_cases hv : isCacheValid s now = true
        · exact Or.inl (by simp [getExpenses, hv])
        · exact Or.inr (by simp [getExpenses, hv])
  · rw [if_neg hd]
    exact Or.inl rfl

/-- Helper: if the state left by the warning computation has no cache
timestamp, the input state already had none. -/
theorem warningRefresh_none (budgets : List Budget) (s : ControllerState)
    (now : Nat) (x : Expense)
    (h : (warningRefresh budgets s now x).snd.cacheLastUpdated = none) :
    s.cacheLastUpdated = none := by
  rcases warningRefresh_cacheLastUpdated budgets s now x with hl | hl
  · rw [hl] at h
    exact h
  · rw [hl] at h
    exact absurd h (by simp)

/-- C7: add_expense, update_expense and delete_expense are total
result-pair functions over every storage outcome, a raised exception
included — success holds exactly for a validated record persisted with a
true storage return; any other outcome yields a false result; the cache
timestamp is cleared exactly on successful persistence (a failed call
never invalidates it); and a storage exception surfaces as a false
result with an error message rather than propagating
(src/controllers/expense_controller.py, add_expense, update_expense,
delete_expense). -/
theorem write_failures_never_raise (budgets : List Budget) (s : ControllerState) (now : Nat)
    (outcome : StorageOutcome) (old : Expense) (date : Ymd) (amount : ℚ)
    (category description : String) (e : Expense) :
    ((addExpense budgets s now outcome date amount category description).fst.fst
        = ((Expense.mk date amount category description).validB && decide (outcome = .ok true))
      ∧ ((addExpense budgets s now outcome date amount category description).snd.cacheLastUpdated
            = none
          → ((Expense.mk date amount category description).validB
              && decide (outcome = .ok true)) = true
            ∨ s.cacheLastUpdated = none)
      ∧ (((Expense.mk date amount category description).validB
            && decide (outcome = .ok true)) = true
          → (addExpense budgets s now outcome date amount category description).snd.cacheLastUpdated
            = none)
      ∧ (outcome = .exn → (Expense.mk date amount category description).validB = true
          → (addExpense budgets s now outcome date amount category description).fst
            = (false, .unexpectedError)))
    ∧ ((updateExpense budgets s now outcome old date amount category description).fst.fst
        = ((Expense.mk date amount category description).validB && decide (outcome = .ok true))
      ∧ ((updateExpense budgets s now outcome old date amount category description).snd.cacheLastUpdated
            = none
          → ((Expense.mk date amount category description).validB
              && decide (outcome = .ok true)) = true
            ∨ s.cacheLastUpdated = none)
      ∧ (((Expense.mk date amount category description).validB
            && decide (outcome = .ok true)) = true
          → (updateExpense budgets s now outcome old date amount
              category description).snd.cacheLastUpdated = none)
      ∧ (outcome = .exn → (Expense.mk date amount category description).validB = true
          → (updateExpense budgets s now outcome old date amount category description).fst
            = (false, .unexpectedError)))
    ∧ ((deleteExpense s outcome e).fst.fst = decide (outcome = .ok true)
      ∧ ((deleteExpense s outcome e).snd.cacheLastUpdated = none
          → decide (outcome = .ok true) = true ∨ s.cacheLastUpdated = none)
      ∧ (decide (outcome = .ok true) = true
          → (deleteExpense s outcome e).snd.cacheLastUpdated = none)
      ∧ (outcome = .exn → (deleteExpense s outcome e).fst = (false, .unexpectedError))) := by
  refine ⟨⟨?_, ?_, ?_, ?_⟩, ⟨?_, ?_, ?_, ?_⟩, ⟨?_, ?_, ?_, ?_⟩⟩
  · by_cases hv : (Expense.mk date amount category description).validB = true
    · cases outcome with
      | ok b => cases b <;> simp [addExpense, hv]
      | exn => simp [addExpense, hv]
    · have hv' : (Expense.mk date amount category description).validB = false := by
        simpa using hv
      cases outcome with
      | ok b => cases b <;> simp [addExpense, hv']
      | exn => simp [addExpense, hv']
  · intro h
    by_cases hv : (Expense.mk date amount category description).validB = true
    · cases outcome with
      | ok b =>
          cases b
          · simp [addExpense, hv] at h
            exact Or.inr (warningRefresh_none _ _ _ _ h)
          · exact Or.inl (by simp [hv])
      | exn =>
          simp [addExpense, hv] at h
          exact Or.inr (warningRefresh_none _ _ _ _ h)
    · have hv' : (Expense.mk date amount category description).validB = false := by
        simpa using hv
      cases outcome with
      | ok b => cases b <;> simp [addExpense, hv'] at h <;> exact Or.inr h
      | exn =>
          simp [addExpense, hv'] at h
          exact Or.inr h
  · intro h
    simp only [Bool.and_eq_true, decide_eq_true_eq] at h
    rw [h.2]
    simp [addExpense, h.1, invalidateCache]
  · intro ho hv
    subst ho
    simp [addExpense, hv]
  · by_cases hv : (Expense.mk date amount category description).validB = true
    · cases outcome with
      | ok b => cases b <;> simp [updateExpense, hv]
      | exn => simp [updateExpense, hv]
    · have hv' : (Expense.mk date amount category description).validB = false := by
        simpa using hv
      cases outcome with
      | ok b => cases b <;> simp [updateExpense, hv']
      | exn => simp [updateExpense, hv']
  · intro h
    by_cases hv : (Expense.mk date amount category description).validB = true
    · cases outcome with
      | ok b =>
          cases b
          · simp [updateExpense, hv] at h
            exact Or.inr (warningRefresh_none _ _ _ _ h)
          · exact Or.inl (by simp [hv])
      | exn =>
          simp [updateExpense, hv] at h
          exact Or.inr (warningRefresh_none _ _ _ _ h)
    · have hv' : (Expense.mk date amount category description).validB = false := by
        simpa using hv
      cases outcome with
      | ok b => cases b <;> simp [updateExpense, hv'] at h <;> exact Or.inr h
      | exn =>
          simp [updateExpense, hv'] at h
          exact Or.inr h
  · intro h
    simp only [Bool.and_eq_true, decide_eq_true_eq] at h
    rw [h.2]
    simp [updateExpense, h.1, invalidateCache]
  · intro ho hv
    subst ho
    simp [updateExpense, hv]
  · cases outcome with
    | ok b => cases b <;> simp [deleteExpense]
    | exn => simp [deleteExpense]
  · intro h
    cases outcome with
    | ok b =>
        cases b
        · simp [deleteExpense] at h
          exact Or.inr h
        · exact Or.inl (by simp)
    | exn =>
        simp [deleteExpense] at h
        exact Or.inr h
  · intro h
    simp only [decide_eq_true_eq] at h
    rw [h]
    simp [deleteExpense, invalidateCache]
  · intro ho
    subst ho
    simp [deleteExpense]

/-- Witness for C7: a raised storage exception on add and delete becomes
a false result with an error message, and a successful add clears the
cache timestamp. -/
theorem write_failures_never_raise_witness :
    (addExpense [] ⟨[], some 7, []⟩ 0 .exn ⟨2024, 3, 3⟩ (-7) "Food" "").fst
        = (false, .unexpectedError)
    ∧ (deleteExpense ⟨[], some 7, []⟩ .exn ⟨⟨2024, 3, 3⟩, -7, "Food", ""⟩).fst
        = (false, .unexpectedError)
    ∧ (addExpense [] ⟨[], some 7, []⟩ 0 (.ok true) ⟨2024, 3, 3⟩ (-7) "Food" "").snd.cacheLastUpdated
        = none := by
  refine ⟨?_, ?_, ?_⟩
  · exact (write_failures_never_raise [] ⟨[], some 7, []⟩ 0 .exn ⟨⟨2020, 1, 1⟩, 1, "x", ""⟩
      ⟨2024, 3, 3⟩ (-7) "Food" "" ⟨⟨2024, 3, 3⟩, -7, "Food", ""⟩).1.2.2.2 rfl (by decide)
  · exact (write_failures_never_raise [] ⟨[], some 7, []⟩ 0 .exn ⟨⟨2020, 1, 1⟩, 1, "x", ""⟩
      ⟨2024, 3, 3⟩ (-7) "Food" "" ⟨⟨2024, 3, 3⟩, -7, "Food", ""⟩).2.2.2.2.2 rfl
  · exact (write_failures_never_raise [] ⟨[], some 7, []⟩ 0 (.ok true) ⟨⟨2020, 1, 1⟩, 1, "x", ""⟩
      ⟨2024, 3, 3⟩ (-7) "Food" "" ⟨⟨2024, 3, 3⟩, -7, "Food", ""⟩).1.2.2.1 (by decide)

/-- Helper: every month has at least 28 days. -/
theorem daysInMonth_ge_28 (y m : Nat) : 28 ≤ daysInMonth y m := by
  unfold daysInMonth
  split_ifs <;> omega

/-- Helper: every month has at most 31 days. -/
theorem daysInMonth_le_31 (y m : Nat) : daysInMonth y m ≤ 31 := by
  unfold daysInMonth
  split_ifs <;> omega

/-- Helper: January has 31 days. -/
theorem daysInMonth_january (y : Nat) : daysInMonth y 1 = 31 := rfl

/-- C8 counterexample: with scheduling enabled, target day 31 at 09:00,
evaluated on 2023-02-15 at 10:00, get_next_scheduled_time returns none —
the current-month branch raises on the nonexistent February 31 and the
exception is swallowed — instead of the claimed clamped result of the
last day of February at 09:00. -/
theorem scheduler_no_current_month_clamp_counterexample :
    getNextScheduledTime ⟨true, 31, 9, 0⟩ ⟨2023, 2, 15⟩ ⟨10, 0⟩ = none
    ∧ getNextScheduledTime ⟨true, 31, 9, 0⟩ ⟨2023, 2, 15⟩ ⟨10, 0⟩
        ≠ some ⟨⟨2023, 2, 28⟩, ⟨9, 0⟩⟩ := by
  constructor <;> decide

/-- C8 amended: with scheduling enabled and a well-formed configuration,
get_next_scheduled_time returns this month's target day when today is
before a target day that exists in the current month, and none when the
target day does not exist in it (no current-month clamping); today when
today is the target day and the target time has not elapsed; otherwise
the next month's target day clamped to that month's length, December
rolling into January of the next year; and every returned date-time is a
valid calendar date at the target hour:minute, not before the current
instant (src/services/email_scheduler.py, get_next_scheduled_time). -/
theorem scheduler_next_time_branches (cfg : ScheduleConfig) (today : Ymd) (now : TimeOfDay)
    (hen : cfg.enabled = true) (hd1 : 1 ≤ cfg.day_of_month) (hd31 : cfg.day_of_month ≤ 31)
    (hh : cfg.hour ≤ 23) (hm : cfg.minute ≤ 59) (hvalid : today.valid = true) :
    (today.day < cfg.day_of_month →
      getNextScheduledTime cfg today now =
        (if cfg.day_of_month ≤ daysInMonth today.year today.month
         then some ⟨⟨today.year, today.month, cfg.day_of_month⟩, ⟨cfg.hour, cfg.minute⟩⟩
         else none))
    ∧ (today.day = cfg.day_of_month → timeLtb now ⟨cfg.hour, cfg.minute⟩ = true →
        getNextScheduledTime cfg today now = some ⟨today, ⟨cfg.hour, cfg.minute⟩⟩)
    ∧ (cfg.day_of_month < today.day
        ∨ (today.day = cfg.day_of_month ∧ timeLtb now ⟨cfg.hour, cfg.minute⟩ = false) →
        getNextScheduledTime cfg today now =
          (if today.month = 12
           then some ⟨⟨today.year + 1, 1, cfg.day_of_month⟩, ⟨cfg.hour, cfg.minute⟩⟩
           else some ⟨⟨today.year, today.month + 1,
                min cfg.day_of_month (daysInMonth today.year (today.month + 1))⟩,
                ⟨cfg.hour, cfg.minute⟩⟩))
    ∧ (∀ r, getNextScheduledTime cfg today now = some r →
        nextTimeLe today now r.date r.time = true ∧ r.date.valid = true
          ∧ r.time = ⟨cfg.hour, cfg.minute⟩) := by
  have hvp : 1 ≤ today.month ∧ today.month ≤ 12 ∧ 1 ≤ today.day
      ∧ today.day ≤ daysInMonth today.year today.month := by
    simpa [Ymd.valid] using hvalid
  refine ⟨?_, ?_, ?_, ?_⟩
  · intro hlt
    by_cases hle : cfg.day_of_month ≤ daysInMonth today.year today.month
    · simp [getNextScheduledTime, hen, hh, hm, hlt, hd1, hle]
    · simp [getNextScheduledTime, hen, hh, hm, hlt, hd1, hle]
  · intro heq ht
    have hnlt : ¬ today.day < cfg.day_of_month := by omega
    simp [getNextScheduledTime, hen, hh, hm, hnlt, heq, ht]
  · intro hor
    have hnlt : ¬ today.day < cfg.day_of_month := by
      rcases hor with h | ⟨h, _⟩ <;> omega
    have hsecond : (decide (today.day = cfg.day_of_month)
        && timeLtb now ⟨cfg.hour, cfg.minute⟩) = false := by
      rcases hor with h | ⟨h, ht⟩
      · have : ¬ today.day = cfg.day_of_month := by omega
        simp [this]
      · simp [h, ht]
    by_cases h12 : today.month = 12
    · simp [getNextScheduledTime, hen, hh, hm, hnlt, hsecond, h12, hd1, hd31]
    · by_cases hle2 : cfg.day_of_month ≤ daysInMonth today.year (today.month + 1)
      · simp [getNextScheduledTime, hen, hh, hm, hnlt, hsecond, h12, hd1, hle2,
          Nat.min_eq_left hle2]
      · have hmin : 1 ≤ min cfg.day_of_month (daysInMonth today.year (today.month + 1)) := by
          have := daysInMonth_ge_28 today.year (today.month + 1)
          omega
        simp [getNextScheduledTime, hen, hh, hm, hnlt, hsecond, h12, hd1, hle2, hmin]
  · intro r hr
    unfold getNextScheduledTime at hr
    split_ifs at hr with c1 c2 c3 c4 c5 c6 c7 c8 c9
    all_goals injection hr with hr
    all_goals subst hr
    · simp only [Bool.and_eq_true, decide_eq_true_eq] at c3 c4
      refine ⟨?_, ?_, rfl⟩
      · simp only [nextTimeLe, decide_eq_true_eq, lt_self_iff_false, true_and, false_or]
        omega
      · simp only [Ymd.valid, decide_eq_true_eq]
        omega
    · simp only [Bool.and_eq_true, decide_eq_true_eq, timeLtb] at c5
      refine ⟨?_, ?_, rfl⟩
      · simp only [nextTimeLe, decide_eq_true_eq, lt_self_iff_false, true_and, false_or]
        omega
      · simpa [Ymd.valid] using hvp
    · simp only [Bool.and_eq_true, decide_eq_true_eq] at c6 c7
      refine ⟨?_, ?_, rfl⟩
      · simp only [nextTimeLe, decide_eq_true_eq, lt_self_iff_false, true_and, false_or]
        omega
      · simp only [Ymd.valid, decide_eq_true_eq, daysInMonth_january]
        omega
    · simp only [Bool.and_eq_true, decide_eq_true_eq] at c8
      refine ⟨?_, ?_, rfl⟩
      · simp only [nextTimeLe, decide_eq_true_eq, lt_self_iff_false, true_and, false_or]
        omega
      · simp only [Ymd.valid, decide_eq_true_eq]
        have h6 : today.month ≠ 12 := by
          intro hcon
          exact c6 (by simp [hcon])
        omega
    · simp only [decide_eq_true_eq] at c9
      have h28 := daysInMonth_ge_28 today.year (today.month + 1)
      refine ⟨?_, ?_, rfl⟩
      · simp only [nextTimeLe, decide_eq_true_eq, lt_self_iff_false, true_and, false_or]
        omega
      · simp only [Ymd.valid, decide_eq_true_eq]
        have h6 : today.month ≠ 12 := by
          intro hcon
          exact c6 (by simp [hcon])
        have hminle : min cfg.day_of_month (daysInMonth today.year (today.month + 1))
            ≤ daysInMonth today.year (today.month + 1) := Nat.min_le_right _ _
        omega

/-- Witness for C8 amended: target day 1 evaluated on the 15th rolls to
the 1st of the following month, December rolls into January of the next
year, and target day 31 late on January 31st resolves to the last day of
February. -/
theorem scheduler_next_time_branches_witness :
    getNextScheduledTime ⟨true, 1, 9, 0⟩ ⟨2024, 5, 15⟩ ⟨10, 0⟩ = some ⟨⟨2024, 6, 1⟩, ⟨9, 0⟩⟩
    ∧ getNextScheduledTime ⟨true, 1, 9, 0⟩ ⟨2024, 12, 15⟩ ⟨10, 0⟩ = some ⟨⟨2025, 1, 1⟩, ⟨9, 0⟩⟩
    ∧ getNextScheduledTime ⟨true, 31, 9, 0⟩ ⟨2023, 1, 31⟩ ⟨10, 0⟩
        = some ⟨⟨2023, 2, 28⟩, ⟨9, 0⟩⟩ := by
  refine ⟨?_, ?_, ?_⟩
  · have h := (scheduler_next_time_branches ⟨true, 1, 9, 0⟩ ⟨2024, 5, 15⟩ ⟨10, 0⟩
      (by decide) (by decide) (by decide) (by decide) (by decide) (by decide)).2.2.1
      (Or.inl (by decide))
    simpa [daysInMonth, isLeapYear] using h
  · have h := (scheduler_next_time_branches ⟨true, 1, 9, 0⟩ ⟨2024, 12, 15⟩ ⟨10, 0⟩
      (by decide) (by decide) (by decide) (by decide) (by decide) (by decide)).2.2.1
      (Or.inl (by decide))
    simpa using h
  · have h := (scheduler_next_time_branches ⟨true, 31, 9, 0⟩ ⟨2023, 1, 31⟩ ⟨10, 0⟩
      (by decide) (by decide) (by decide) (by decide) (by decide) (by decide)).2.2.1
      (Or.inr ⟨by decide, by decide⟩)
    simpa [daysInMonth, isLeapYear] using h

end SpendingTracker
